import Mathlib

/-!
Verification of the policy-server bootstrap sequencer and evaluation
pipeline (src/main.rs) against its specification.

The Rust `main` function is embedded shallowly: external effects (policy
verification, policy fetching, checksum verification, the boot replies of
the kubernetes poller and of the worker pool) are supplied as oracles in an
environment record, and the sequencer is a pure function from that
environment to a trace of observable events plus an outcome.  Components of
the repository that are not present under src/ (worker.rs, worker_pool.rs,
kube_poller.rs) are modelled from the specification and carry a doc comment
saying so.
-/

namespace PolicyServer

/-! ## Data model -/

/-- Result of `policy_fetcher::fetch_policy`: the fetched policy's uri and
the local path of the downloaded wasm module. -/
structure FetchedPolicy where
  uri : String
  localPath : String
deriving DecidableEq, Repr

/-- A policy entry of the `policies` map of `main`: its name (the map key),
its `url`, and the `wasm_module_path` field that `main` fills in after a
successful fetch. -/
structure Policy where
  name : String
  url : String
  wasmModulePath : String
deriving DecidableEq, Repr

/-- Environment of the policy-download phase of `main` (lines 169-282 of
src/main.rs).  The external collaborators (the signature verifier and the
policy fetcher) are oracles: `verifyResult url key` is what
`Verifier::verify` returns for that policy url and verification key,
`fetchResult url` is what `policy_fetcher::fetch_policy` returns, and
`checksumResult uri digest` is what `Verifier::verify_local_file_checksum`
returns. -/
structure Env where
  verifyEnabled : Bool
  verificationKeys : List String
  verifyResult : String → String → Except String String
  fetchResult : String → Except String FetchedPolicy
  checksumResult : String → String → Except String Unit

/-- Observable calls made by the download phase, in program order.
`fatal msg` records a call to `fatal_error msg`. -/
inductive Call where
  | verifyCall (url key : String)
  | fetchCall (url : String)
  | checksumCall (uri digest : String)
  | fatal (msg : String)
deriving DecidableEq, Repr

/-- The `for key_value in verification_keys.values()` loop of `main`
(lines 179-201): each key is verified in turn; a failure calls
`fatal_error`; on success the verified manifest digest of the last
iteration is kept. -/
def verifyAllKeys (env : Env) (url : String) :
    List String → Option String → List Call × Except String (Option String)
  | [], acc => ([], .ok acc)
  | k :: rest, acc =>
    match env.verifyResult url k with
    | .ok d =>
      (Call.verifyCall url k :: (verifyAllKeys env url rest (some d)).1,
        (verifyAllKeys env url rest (some d)).2)
    | .error e => ([Call.verifyCall url k], .error e)

/-- The verification phase run before the fetch: the key loop when
verification is enabled, nothing otherwise (the digest stays `none`). -/
def verifyPhase (env : Env) (url : String) : List Call × Except String (Option String) :=
  if env.verifyEnabled then verifyAllKeys env url env.verificationKeys none
  else ([], .ok none)

/-- Message built by the `Err` arm of the fetch match (lines 275-280). -/
def fetchErrorMsg (p : Policy) (e : String) : String :=
  "error while fetching policy " ++ p.name ++ " from " ++ p.url ++ ": " ++ e

/-- Message of the missing-digest guard of lines 223-228. -/
def noKeysMsg : String := "Trying to verify but no keys were passed"

/-- The body of the download loop of `main` for a single policy
(lines 169-281): verify against every key when verification is enabled,
fetch the policy, then when verification is enabled re-verify the local
file's checksum against the verified manifest digest; every failure goes
through `fatal_error` (modelled as a `Call.fatal` in the trace and an
`Except.error` result). -/
def downloadPolicy (env : Env) (p : Policy) : List Call × Except String Policy :=
  match (verifyPhase env p.url).2 with
  | .error e => ((verifyPhase env p.url).1 ++ [Call.fatal e], .error e)
  | .ok digest =>
    match env.fetchResult p.url with
    | .error e =>
      ((verifyPhase env p.url).1 ++ [Call.fetchCall p.url, Call.fatal (fetchErrorMsg p e)],
        .error (fetchErrorMsg p e))
    | .ok fp =>
      if env.verifyEnabled then
        match digest with
        | none =>
          ((verifyPhase env p.url).1 ++ [Call.fetchCall p.url, Call.fatal noKeysMsg],
            .error noKeysMsg)
        | some d =>
          match env.checksumResult fp.uri d with
          | .error e =>
            ((verifyPhase env p.url).1 ++
              [Call.fetchCall p.url, Call.checksumCall fp.uri d, Call.fatal e], .error e)
          | .ok _ =>
            ((verifyPhase env p.url).1 ++ [Call.fetchCall p.url, Call.checksumCall fp.uri d],
              .ok { p with wasmModulePath := fp.localPath })
      else
        ((verifyPhase env p.url).1 ++ [Call.fetchCall p.url],
          .ok { p with wasmModulePath := fp.localPath })

/-- The whole `for (name, policy) in policies.iter_mut()` loop: policies are
downloaded in order and the first failure aborts (the process exits inside
`fatal_error`). -/
def downloadAll (env : Env) : List Policy → List Call × Except String (List Policy)
  | [] => ([], .ok [])
  | p :: rest =>
    match (downloadPolicy env p).2 with
    | .error e => ((downloadPolicy env p).1, .error e)
    | .ok p' =>
      match (downloadAll env rest).2 with
      | .error e => ((downloadPolicy env p).1 ++ (downloadAll env rest).1, .error e)
      | .ok ps => ((downloadPolicy env p).1 ++ (downloadAll env rest).1, .ok (p' :: ps))

/-! ## The bootstrap sequencer -/

/-- Observable events of the bootstrap sequencer (the async block of `main`,
lines 145-372), in program order. -/
inductive Event where
  | tracingReady
  | downloadsDone
  | pollerBootRequested
  | pollerReady
  | poolBootRequested (poolSize : Nat)
  | poolReady
  | serverStarted
  | fatalError (msg : String)
deriving DecidableEq, Repr

/-- Outcome of the bootstrap sequencer: either `server::run_server` is
reached, or `fatal_error` terminated the process. -/
inductive BootOutcome where
  | serverRunning
  | fatalExit (msg : String)
deriving DecidableEq, Repr

/-- Eventual outcome of the `try_recv` polling loop on a oneshot reply
channel: the sender delivered a result, or the channel closed without one
(`TryRecvError::Closed`).  The `Empty` case only continues the loop and has
no eventual observable effect. -/
inductive RecvOutcome where
  | got (res : Except String Unit)
  | closed
deriving Repr

/-- Environment of the bootstrap sequencer: the tracing-setup result, the
download environment and the policies, whether each oneshot boot-request
send succeeds, the eventual reply of each booted subsystem, and the worker
pool size. -/
structure BootEnv where
  tracing : Except String Unit
  env : Env
  policies : List Policy
  pollerSendOk : Bool
  pollerReply : RecvOutcome
  poolSendOk : Bool
  poolReply : RecvOutcome
  poolSize : Nat

/-- The bootstrap sequencer: the async block of `main` (lines 145-372).
Steps in program order: tracing setup, policy downloads, kubernetes poller
boot request and wait, worker pool boot request and wait, and only then
`server::run_server`.  Every failure calls `fatal_error`, which exits the
process, so the trace stops at the first `fatalError` event. -/
def bootstrap (be : BootEnv) : List Event × BootOutcome :=
  match be.tracing with
  | .error e => ([Event.fatalError e], .fatalExit e)
  | .ok _ =>
    match (downloadAll be.env be.policies).2 with
    | .error e => ([Event.tracingReady, Event.fatalError e], .fatalExit e)
    | .ok _ =>
      if !be.pollerSendOk then
        let msg := "Cannot send bootstrap data to kubernetes poller"
        ([Event.tracingReady, Event.downloadsDone, Event.fatalError msg], .fatalExit msg)
      else
        match be.pollerReply with
        | .closed =>
          let msg := "Cannot receive kubernetes poller bootstrap result"
          ([Event.tracingReady, Event.downloadsDone, Event.pollerBootRequested,
            Event.fatalError msg], .fatalExit msg)
        | .got (.error e) =>
          ([Event.tracingReady, Event.downloadsDone, Event.pollerBootRequested,
            Event.fatalError e], .fatalExit e)
        | .got (.ok _) =>
          if !be.poolSendOk then
            let msg := "Cannot send bootstrap data to worker pool"
            ([Event.tracingReady, Event.downloadsDone, Event.pollerBootRequested,
              Event.pollerReady, Event.fatalError msg], .fatalExit msg)
          else
            match be.poolReply with
            | .closed =>
              let msg := "Cannot receive worker pool bootstrap result"
              ([Event.tracingReady, Event.downloadsDone, Event.pollerBootRequested,
                Event.pollerReady, Event.poolBootRequested be.poolSize,
                Event.fatalError msg], .fatalExit msg)
            | .got (.error e) =>
              ([Event.tracingReady, Event.downloadsDone, Event.pollerBootRequested,
                Event.pollerReady, Event.poolBootRequested be.poolSize,
                Event.fatalError e], .fatalExit e)
            | .got (.ok _) =>
              ([Event.tracingReady, Event.downloadsDone, Event.pollerBootRequested,
                Event.pollerReady, Event.poolBootRequested be.poolSize,
                Event.poolReady, Event.serverStarted], .serverRunning)

/-! ## The fatal-error handler -/

/-- Low-level system actions performed by `fatal_error` (src/main.rs,
lines 385-390). -/
inductive SysAction where
  | logError (msg : String)
  | shutdownTracerProvider
  | processExit (code : Nat)
deriving DecidableEq, Repr

/-- The `fatal_error` function of src/main.rs: log the message, flush the
tracer state via `shutdown_tracer_provider`, then `process::exit(1)`. -/
def fatal_error (msg : String) : List SysAction :=
  [SysAction.logError msg, SysAction.shutdownTracerProvider, SysAction.processExit 1]

/-! ## The evaluation request channel -/

/-- An admission-review evaluation request, as placed on the api channel by
an HTTP handler: the policy name, the admission review payload, and nothing
else observable to the channel. -/
structure EvalRequest where
  policyName : String
  payload : String
deriving DecidableEq, Repr

/-- State of a bounded tokio mpsc channel: its fixed capacity, the queue of
buffered values, and the suspended senders in arrival order.  A sender that
finds the channel full parks itself (holding its value) instead of dropping
or failing; a receive wakes the oldest parked sender. -/
structure ChanState (α : Type) where
  capacity : Nat
  queue : List α
  pending : List α
deriving DecidableEq, Repr

/-- Capacity given to `mpsc::channel::<EvalRequest>(32)` on line 85 of
src/main.rs. -/
def evalRequestChannelCapacity : Nat := 32

/-- The api channel as created by `main`: empty, with capacity 32. -/
def initApiChannel : ChanState EvalRequest :=
  { capacity := evalRequestChannelCapacity, queue := [], pending := [] }

/-- One send on the bounded channel: when a buffer slot is free (and no
earlier sender is still parked) the value is enqueued; otherwise the
sender suspends, keeping its value in `pending`. -/
def sendStep {α : Type} (s : ChanState α) (x : α) : ChanState α :=
  if s.pending.isEmpty && decide (s.queue.length < s.capacity) then
    { s with queue := s.queue ++ [x] }
  else
    { s with pending := s.pending ++ [x] }

/-- One receive on the bounded channel: the head of the queue is taken and
the oldest parked sender, if any, gets the freed slot. -/
def recvStep {α : Type} (s : ChanState α) : Option (α × ChanState α) :=
  match s.queue with
  | [] => none
  | x :: rest =>
    match s.pending with
    | [] => some (x, { s with queue := rest })
    | p :: ps => some (x, { s with queue := rest ++ [p], pending := ps })

/-! ## Boolean-by-presence environment variables -/

/-- The flag computation of lines 62-65 of src/main.rs:
`matches.is_present(flag) || std::env::var_os(VAR).is_some()`.  The
environment variable's value (`Option String`, `none` when unset) is only
tested for presence. -/
def boolByPresence (cliFlagPresent : Bool) (envValue : Option String) : Bool :=
  cliFlagPresent || envValue.isSome

/-- metrics_enabled, from `--enable-metrics` and KUBEWARDEN_ENABLE_METRICS. -/
def metricsEnabled (enableMetricsFlag : Bool) (envVar : Option String) : Bool :=
  boolByPresence enableMetricsFlag envVar

/-- verify_enabled, from `--enable-verification` and
KUBEWARDEN_ENABLE_VERIFICATION. -/
def verifyEnabledFlag (enableVerificationFlag : Bool) (envVar : Option String) : Bool :=
  boolByPresence enableVerificationFlag envVar

/-! ## Worker pool size -/

/-- Largest value of the 64-bit Rust `usize`. -/
def USIZE_MAX : Nat := 2 ^ 64 - 1

/-- Rust's `str::parse::<usize>()`: an optional leading plus sign followed
by at least one ascii digit, rejecting anything else and values above
`usize::MAX`. -/
def parseUsize (s : String) : Option Nat :=
  let cs := match s.data with
            | '+' :: rest => rest
            | other => other
  if cs.isEmpty then none
  else if cs.all Char.isDigit then
    let n := cs.foldl (fun acc c => acc * 10 + (c.toNat - 48)) 0
    if n ≤ USIZE_MAX then some n else none
  else none

/-- The pool-size computation of lines 39-42 of src/main.rs:
`matches.value_of("workers").map_or_else(num_cpus::get, |v| v.parse().expect(...))`.
`none` models the panic raised by `expect` when parsing fails. -/
def poolSize (workersOpt : Option String) (numCpus : Nat) : Option Nat :=
  match workersOpt with
  | none => some numCpus
  | some v => parseUsize v

/-! ## Worker behaviour (modelled from the spec) -/

/-- Policy execution mode. -/
inductive PolicyMode where
  | monitor
  | protect
deriving DecidableEq, Repr

/-- The admission response produced by one evaluation. -/
structure EvaluationResponse where
  allowed : Bool
  patch : Option String
  patchType : Option String
  statusMessage : Option String
  auditAnnotations : List (String × String)
deriving DecidableEq, Repr

/-- Modelled from the spec: the monitor-mode rewrite performed by worker.rs,
which is not under src/.  Spec 4.2: in `monitor` mode, a deny outcome is
rewritten to allow with an audit annotation recording the original
decision, and the patch is discarded; `protect` mode passes the evaluator's
response through. -/
def applyPolicyMode (mode : PolicyMode) (resp : EvaluationResponse) : EvaluationResponse :=
  match mode with
  | .protect => resp
  | .monitor =>
    { allowed := true
      patch := none
      patchType := none
      statusMessage := resp.statusMessage
      auditAnnotations := resp.auditAnnotations ++
        [("kubewarden.policy.decision", if resp.allowed then "allow" else "deny")] }

/-- Outcome observed by the holder of a request's oneshot reply handle:
either exactly one response was delivered on it, or it was dropped and the
caller observes failure. -/
inductive ReplyOutcome where
  | delivered (resp : EvaluationResponse)
  | dropped
deriving DecidableEq, Repr

/-- The response a Worker sends for an unknown policy name (spec 4.3:
`policy_not_found`). -/
def policyNotFoundResponse (policyName : String) : EvaluationResponse :=
  { allowed := false
    patch := none
    patchType := none
    statusMessage := some ("policy not found: " ++ policyName)
    auditAnnotations := [] }

/-- Modelled from the spec: the Worker receive loop of worker.rs, which is
not under src/.  Spec 4.1 and 4.3: the consumer of a request must produce
either a success response, an error response, or close the reply handle;
an unknown policy name yields `policy_not_found`.  The evaluator oracle
returns `none` when the evaluation dies without a response, in which case
the reply handle is dropped. -/
def handleRequest (policies : List (String × PolicyMode))
    (evalFn : String → String → Option EvaluationResponse)
    (req : EvalRequest) : ReplyOutcome :=
  match policies.lookup req.policyName with
  | none => .delivered (policyNotFoundResponse req.policyName)
  | some mode =>
    match evalFn req.policyName req.payload with
    | some resp => .delivered (applyPolicyMode mode resp)
    | none => .dropped

/-- Modelled from the spec: the Worker draining its inbox serially, pairing
every accepted request with the outcome observed on its reply handle. -/
def workerLoop (policies : List (String × PolicyMode))
    (evalFn : String → String → Option EvaluationResponse)
    (reqs : List EvalRequest) : List (EvalRequest × ReplyOutcome) :=
  reqs.map (fun r => (r, handleRequest policies evalFn r))

/-! ## Kubernetes poller boot (modelled from the spec) -/

/-- Reply of the kubernetes context poller to its boot request: ready
(noting whether context data is available and whether a warning was
logged), or a failure message. -/
inductive PollerReply where
  | ready (withContext : Bool) (warned : Bool)
  | failure (msg : String)
deriving DecidableEq, Repr

/-- Modelled from the spec: the boot handling of kube_poller.rs, which is
not under src/.  Spec 7: `poller_unreachable` is fatal unless
`ignore_kubernetes_connection_failure` is set, in which case the failure
is downgraded to a warning and the server runs without context data. -/
def pollerBoot (clusterReachable ignoreKubernetesConnectionFailure : Bool) : PollerReply :=
  if clusterReachable then .ready true false
  else if ignoreKubernetesConnectionFailure then .ready false true
  else .failure "Kubernetes cluster unreachable"

/-- The result the poller sends back on its boot oneshot channel, as
received by the sequencer's waiting loop (lines 303-317 of src/main.rs). -/
def pollerReplyResult : PollerReply → Except String Unit
  | .ready _ _ => .ok ()
  | .failure m => .error m

/-! ## Concrete sample environments, used to instantiate the theorems -/

/-- A download environment with verification disabled and a fetcher that
always succeeds. -/
def sampleEnv : Env :=
  { verifyEnabled := false
    verificationKeys := []
    verifyResult := fun _ _ => .error "unused"
    fetchResult := fun _ => .ok { uri := "uri1", localPath := "path1" }
    checksumResult := fun _ _ => .ok () }

/-- A download environment with verification enabled, two keys, and
verifier, fetcher and checksum oracle that all succeed. -/
def sampleVerifyEnv : Env :=
  { verifyEnabled := true
    verificationKeys := ["k1", "k2"]
    verifyResult := fun _ _ => .ok "digest1"
    fetchResult := fun _ => .ok { uri := "uri1", localPath := "path1" }
    checksumResult := fun _ _ => .ok () }

/-- A sample policy before download. -/
def samplePolicy : Policy := { name := "p1", url := "url1", wasmModulePath := "" }

/-- A bootstrap environment in which every step succeeds. -/
def sampleBootEnv : BootEnv :=
  { tracing := .ok ()
    env := sampleEnv
    policies := [samplePolicy]
    pollerSendOk := true
    pollerReply := .got (.ok ())
    poolSendOk := true
    poolReply := .got (.ok ())
    poolSize := 4 }

/-- A bootstrap environment whose policy fetch fails. -/
def sampleFetchFailBootEnv : BootEnv :=
  { sampleBootEnv with env := { sampleEnv with fetchResult := fun _ => .error "boom" } }

/-! ## Helper lemmas -/

/-- On a successful key loop, the trace is exactly one verify call per
configured key, in order. -/
lemma verifyAllKeys_trace_ok (env : Env) (url : String) :
    ∀ (keys : List String) (acc dig : Option String),
      (verifyAllKeys env url keys acc).2 = Except.ok dig →
      (verifyAllKeys env url keys acc).1 = keys.map fun k => Call.verifyCall url k := by
  intro keys
  induction keys with
  | nil => intro acc dig _; rfl
  | cons k rest ih =>
    intro acc dig h
    rcases hv : env.verifyResult url k with e | d
    · simp [verifyAllKeys, hv] at h
    · simp only [verifyAllKeys, hv] at h ⊢
      simp [ih (some d) dig h]

/-- Every call made by the key loop is a verify call on the given url. -/
lemma verifyAllKeys_trace_shape (env : Env) (url : String) :
    ∀ (keys : List String) (acc : Option String) (c : Call),
      c ∈ (verifyAllKeys env url keys acc).1 → ∃ k, c = Call.verifyCall url k := by
  intro keys
  induction keys with
  | nil => intro acc c h; simp [verifyAllKeys] at h
  | cons k rest ih =>
    intro acc c h
    rcases hv : env.verifyResult url k with e | d
    · simp [verifyAllKeys, hv] at h
      exact ⟨k, h⟩
    · simp only [verifyAllKeys, hv, List.mem_cons] at h
      rcases h with h | h
      · exact ⟨k, h⟩
      · exact ih (some d) c h

/-! ## Claim theorems -/

/-- C8: for both KUBEWARDEN_ENABLE_METRICS and
KUBEWARDEN_ENABLE_VERIFICATION, the feature is enabled exactly when the
variable is present in the environment (any value, the empty string
included) or the matching command-line flag is given, and the variable's
value is never inspected. -/
theorem env_flags_bool_by_presence :
    (∀ f v, metricsEnabled f v = (f || v.isSome)) ∧
    (∀ f v, verifyEnabledFlag f v = (f || v.isSome)) ∧
    (metricsEnabled false (some "") = true) ∧
    (verifyEnabledFlag false (some "") = true) ∧
    (∀ f, metricsEnabled f none = f) ∧
    (∀ f, verifyEnabledFlag f none = f) ∧
    (∀ f a b, metricsEnabled f (some a) = metricsEnabled f (some b)) ∧
    (∀ f a b, verifyEnabledFlag f (some a) = verifyEnabledFlag f (some b)) := by
  refine ⟨fun f v => rfl, fun f v => rfl, rfl, rfl, ?_, ?_, fun f a b => rfl, fun f a b => rfl⟩ <;>
    intro f <;> cases f <;> rfl

/-- C9: with the workers option absent the pool size sent to the worker
pool equals the machine's CPU count, and a present but unparsable value
makes the process panic (modelled as `none`) before starting. -/
theorem workers_option_pool_size :
    (∀ numCpus, poolSize none numCpus = some numCpus) ∧
    (∀ v numCpus, parseUsize v = none → poolSize (some v) numCpus = none) :=
  ⟨fun _ => rfl, fun v _ h => by simp [poolSize, h]⟩

/-- Witness for C9 at the concrete inputs 8 CPUs and the non-numeric
workers value "abc". -/
theorem workers_option_pool_size_witness :
    poolSize none 8 = some 8 ∧
    (parseUsize "abc" = none ∧ poolSize (some "abc") 8 = none) :=
  ⟨workers_option_pool_size.1 8, by decide, workers_option_pool_size.2 "abc" 8 (by decide)⟩

/-- C7: the evaluation request channel created by `main` is bounded with
capacity 32, and a send on a full channel suspends the producer, keeping
the request pending, instead of dropping or failing it. -/
theorem eval_request_channel_bounded_backpressure :
    evalRequestChannelCapacity = 32 ∧
    initApiChannel.capacity = 32 ∧
    initApiChannel.queue = [] ∧
    (∀ (s : ChanState EvalRequest) (x : EvalRequest),
      s.capacity ≤ s.queue.length →
        sendStep s x = { s with pending := s.pending ++ [x] }) ∧
    (∀ (s : ChanState EvalRequest) (x : EvalRequest),
      x ∈ (sendStep s x).queue ∨ x ∈ (sendStep s x).pending) := by
  refine ⟨rfl, rfl, rfl, ?_, ?_⟩
  · intro s x h
    have hlt : ¬ s.queue.length < s.capacity := by omega
    simp [sendStep, hlt]
  · intro s x
    unfold sendStep
    split
    · left; simp
    · right; simp

/-- Witness for C7: sending on a full channel of capacity 1 parks the
request in `pending` and drops nothing. -/
theorem eval_request_channel_bounded_backpressure_witness :
    sendStep
        ({ capacity := 1, queue := [{ policyName := "p", payload := "r" }], pending := [] } :
          ChanState EvalRequest)
        { policyName := "q", payload := "s" } =
      { capacity := 1, queue := [{ policyName := "p", payload := "r" }],
        pending := [{ policyName := "q", payload := "s" }] } :=
  eval_request_channel_bounded_backpressure.2.2.2.1
    { capacity := 1, queue := [{ policyName := "p", payload := "r" }], pending := [] }
    { policyName := "q", payload := "s" } (by decide)

/-- C3: in monitor mode every response is rewritten to allowed, carries an
audit annotation recording the evaluator's original decision, and its
patch is discarded, so no monitor-mode response carries a non-empty
patch. -/
theorem monitor_mode_never_mutates :
    ∀ resp : EvaluationResponse,
      (applyPolicyMode PolicyMode.monitor resp).patch = none ∧
      (applyPolicyMode PolicyMode.monitor resp).patchType = none ∧
      (applyPolicyMode PolicyMode.monitor resp).allowed = true ∧
      ("kubewarden.policy.decision", if resp.allowed then "allow" else "deny") ∈
        (applyPolicyMode PolicyMode.monitor resp).auditAnnotations := by
  intro resp
  refine ⟨rfl, rfl, rfl, ?_⟩
  simp [applyPolicyMode]

/-- C2: the worker pairs every accepted request with exactly one reply
outcome: a delivered response, or a dropped handle, the latter happening
exactly when the policy is known but its evaluation dies without producing
a response. -/
theorem exactly_one_reply_per_request :
    ∀ (policies : List (String × PolicyMode))
      (evalFn : String → String → Option EvaluationResponse)
      (reqs : List EvalRequest),
      (workerLoop policies evalFn reqs).map Prod.fst = reqs ∧
      (workerLoop policies evalFn reqs).length = reqs.length ∧
      (∀ r ∈ reqs, (r, handleRequest policies evalFn r) ∈ workerLoop policies evalFn reqs) ∧
      (∀ r, handleRequest policies evalFn r = ReplyOutcome.dropped ↔
        ∃ mode, policies.lookup r.policyName = some mode ∧
          evalFn r.policyName r.payload = none) := by
  intro ps f reqs
  refine ⟨?_, ?_, ?_, ?_⟩
  · induction reqs with
    | nil => rfl
    | cons r rs ih => simpa [workerLoop] using ih
  · simp [workerLoop]
  · intro r hr
    simp only [workerLoop, List.mem_map]
    exact ⟨r, hr, rfl⟩
  · intro r
    rcases hl : ps.lookup r.policyName with _ | mode
    · simp [handleRequest, hl]
    · rcases he : f r.policyName r.payload with _ | resp
      · simp [handleRequest, hl, he]
      · simp [handleRequest, hl, he]

/-- Witness for C2 at a single-request inbox whose evaluation dies: the
loop pairs the request with exactly one outcome. -/
theorem exactly_one_reply_per_request_witness :
    (workerLoop [("a", PolicyMode.protect)] (fun _ _ => none)
        [{ policyName := "a", payload := "x" }]).map Prod.fst =
      [{ policyName := "a", payload := "x" }] :=
  (exactly_one_reply_per_request [("a", PolicyMode.protect)] (fun _ _ => none)
    [{ policyName := "a", payload := "x" }]).1

/-- C4: with signature verification enabled, the policy is verified against
every configured key before it is fetched; a successful download re-verifies
the fetched file's checksum against the verified manifest digest after the
fetch; and a verification failure at either step is fatal. -/
theorem verification_before_fetch_and_checksum (env : Env) (p : Policy)
    (hv : env.verifyEnabled = true) :
    (Call.fetchCall p.url ∈ (downloadPolicy env p).1 →
      ∃ post, (downloadPolicy env p).1 =
        (env.verificationKeys.map fun k => Call.verifyCall p.url k) ++
          Call.fetchCall p.url :: post) ∧
    (∀ p', (downloadPolicy env p).2 = Except.ok p' →
      ∃ fp d, env.fetchResult p.url = Except.ok fp ∧
        (verifyAllKeys env p.url env.verificationKeys none).2 = Except.ok (some d) ∧
        env.checksumResult fp.uri d = Except.ok () ∧
        (downloadPolicy env p).1 =
          (env.verificationKeys.map fun k => Call.verifyCall p.url k) ++
            [Call.fetchCall p.url, Call.checksumCall fp.uri d]) ∧
    (∀ e, (verifyAllKeys env p.url env.verificationKeys none).2 = Except.error e →
      (downloadPolicy env p).2 = Except.error e ∧
        Call.fatal e ∈ (downloadPolicy env p).1) ∧
    (∀ fp d e, env.fetchResult p.url = Except.ok fp →
      (verifyAllKeys env p.url env.verificationKeys none).2 = Except.ok (some d) →
      env.checksumResult fp.uri d = Except.error e →
      (downloadPolicy env p).2 = Except.error e ∧
        Call.fatal e ∈ (downloadPolicy env p).1) := by
  refine ⟨?_, ?_, ?_, ?_⟩
  · intro hmem
    rcases hvres : (verifyAllKeys env p.url env.verificationKeys none).2 with e | digest
    · exfalso
      simp [downloadPolicy, verifyPhase, hv, hvres] at hmem
      rcases verifyAllKeys_trace_shape env p.url env.verificationKeys none _ hmem with ⟨k, hk⟩
      simp at hk
    · have hvtr := verifyAllKeys_trace_ok env p.url env.verificationKeys none digest hvres
      rcases hf : env.fetchResult p.url with e | fp
      · exact ⟨[Call.fatal (fetchErrorMsg p e)],
          by simp [downloadPolicy, verifyPhase, hv, hvres, hf, hvtr]⟩
      · rcases digest with _ | d
        · exact ⟨[Call.fatal noKeysMsg],
            by simp [downloadPolicy, verifyPhase, hv, hvres, hf, hvtr]⟩
        · rcases hc : env.checksumResult fp.uri d with e | u
          · exact ⟨[Call.checksumCall fp.uri d, Call.fatal e],
              by simp [downloadPolicy, verifyPhase, hv, hvres, hf, hc, hvtr]⟩
          · exact ⟨[Call.checksumCall fp.uri d],
              by simp [downloadPolicy, verifyPhase, hv, hvres, hf, hc, hvtr]⟩
  · intro p' hok
    rcases hvres : (verifyAllKeys env p.url env.verificationKeys none).2 with e | digest
    · simp [downloadPolicy, verifyPhase, hv, hvres] at hok
    · rcases hf : env.fetchResult p.url with e | fp
      · simp [downloadPolicy, verifyPhase, hv, hvres, hf] at hok
      · rcases digest with _ | d
        · simp [downloadPolicy, verifyPhase, hv, hvres, hf] at hok
        · rcases hc : env.checksumResult fp.uri d with e | u
          · simp [downloadPolicy, verifyPhase, hv, hvres, hf, hc] at hok
          · cases u
            have hvtr := verifyAllKeys_trace_ok env p.url env.verificationKeys none (some d) hvres
            exact ⟨fp, d, rfl, rfl, hc,
              by simp [downloadPolicy, verifyPhase, hv, hvres, hf, hc, hvtr]⟩
  · intro e he
    constructor <;> simp [downloadPolicy, verifyPhase, hv, he]
  · intro fp d e hf hvres hc
    constructor <;> simp [downloadPolicy, verifyPhase, hv, hvres, hf, hc]

/-- Witness for C4 at a concrete verification-enabled environment with two
keys: the download succeeds and its trace is both verify calls, the fetch,
then the checksum re-verification against the verified digest. -/
theorem verification_before_fetch_and_checksum_witness :
    (downloadPolicy sampleVerifyEnv samplePolicy).2 =
      Except.ok { name := "p1", url := "url1", wasmModulePath := "path1" } ∧
    ∃ fp d, sampleVerifyEnv.fetchResult samplePolicy.url = Except.ok fp ∧
      (verifyAllKeys sampleVerifyEnv samplePolicy.url
        sampleVerifyEnv.verificationKeys none).2 = Except.ok (some d) ∧
      sampleVerifyEnv.checksumResult fp.uri d = Except.ok () ∧
      (downloadPolicy sampleVerifyEnv samplePolicy).1 =
        (sampleVerifyEnv.verificationKeys.map fun k =>
          Call.verifyCall samplePolicy.url k) ++
          [Call.fetchCall samplePolicy.url, Call.checksumCall fp.uri d] :=
  ⟨rfl,
    (verification_before_fetch_and_checksum sampleVerifyEnv samplePolicy rfl).2.1
      { name := "p1", url := "url1", wasmModulePath := "path1" } rfl⟩

/-- C10: with verification enabled, when the verification phase completed
without producing a manifest digest and the fetch succeeded, the process
exits fatally instead of serving the unverified policy. -/
theorem verify_enabled_without_digest_is_fatal (env : Env) (p : Policy) (fp : FetchedPolicy)
    (hv : env.verifyEnabled = true)
    (hkeys : (verifyAllKeys env p.url env.verificationKeys none).2 = Except.ok none)
    (hfetch : env.fetchResult p.url = Except.ok fp) :
    (downloadPolicy env p).2 = Except.error noKeysMsg ∧
    Call.fatal noKeysMsg ∈ (downloadPolicy env p).1 := by
  constructor <;> simp [downloadPolicy, verifyPhase, hv, hkeys, hfetch]

/-- Witness for C10: verification enabled with an empty key set and a
successful fetch ends in the fatal missing-digest error. -/
theorem verify_enabled_without_digest_is_fatal_witness :
    (downloadPolicy { sampleVerifyEnv with verificationKeys := [] } samplePolicy).2 =
      Except.error noKeysMsg ∧
    Call.fatal noKeysMsg ∈
      (downloadPolicy { sampleVerifyEnv with verificationKeys := [] } samplePolicy).1 :=
  verify_enabled_without_digest_is_fatal { sampleVerifyEnv with verificationKeys := [] }
    samplePolicy { uri := "uri1", localPath := "path1" } rfl rfl rfl

/-- When the server-start event appears in the bootstrap trace, the trace
is the full success trace and both subsystems replied success. -/
lemma bootstrap_serverStarted_eq (be : BootEnv)
    (h : Event.serverStarted ∈ (bootstrap be).1) :
    bootstrap be =
      ([Event.tracingReady, Event.downloadsDone, Event.pollerBootRequested,
        Event.pollerReady, Event.poolBootRequested be.poolSize, Event.poolReady,
        Event.serverStarted], BootOutcome.serverRunning) ∧
    be.pollerReply = RecvOutcome.got (Except.ok ()) ∧
    be.poolReply = RecvOutcome.got (Except.ok ()) := by
  rcases htr : be.tracing with e | u
  · simp [bootstrap, htr] at h
  · cases u
    rcases hdl : (downloadAll be.env be.policies).2 with e | ps
    · simp [bootstrap, htr, hdl] at h
    · rcases hps : be.pollerSendOk with _ | _
      · simp [bootstrap, htr, hdl, hps] at h
      · rcases hpr : be.pollerReply with res | _
        · rcases res with e | u
          · simp [bootstrap, htr, hdl, hps, hpr] at h
          · cases u
            rcases hqs : be.poolSendOk with _ | _
            · simp [bootstrap, htr, hdl, hps, hpr, hqs] at h
            · rcases hqr : be.poolReply with res2 | _
              · rcases res2 with e | u
                · simp [bootstrap, htr, hdl, hps, hpr, hqs, hqr] at h
                · cases u
                  exact ⟨by simp [bootstrap, htr, hdl, hps, hpr, hqs, hqr], rfl, rfl⟩
              · simp [bootstrap, htr, hdl, hps, hpr, hqs, hqr] at h
        · simp [bootstrap, htr, hdl, hps, hpr] at h

/-- A fatal bootstrap outcome always shows up as a fatal-error event in the
trace, and the server is never started in such a run. -/
lemma bootstrap_fatalExit_mem (be : BootEnv) (e : String)
    (h : (bootstrap be).2 = BootOutcome.fatalExit e) :
    Event.fatalError e ∈ (bootstrap be).1 ∧ Event.serverStarted ∉ (bootstrap be).1 := by
  rcases htr : be.tracing with e0 | u
  · simp_all [bootstrap, htr]
  · cases u
    rcases hdl : (downloadAll be.env be.policies).2 with e0 | ps
    · simp_all [bootstrap, htr, hdl]
    · rcases hps : be.pollerSendOk with _ | _
      · simp_all [bootstrap, htr, hdl, hps]
      · rcases hpr : be.pollerReply with res | _
        · rcases res with e0 | u
          · simp_all [bootstrap, htr, hdl, hps, hpr]
          · cases u
            rcases hqs : be.poolSendOk with _ | _
            · simp_all [bootstrap, htr, hdl, hps, hpr, hqs]
            · rcases hqr : be.poolReply with res2 | _
              · rcases res2 with e0 | u
                · simp_all [bootstrap, htr, hdl, hps, hpr, hqs, hqr]
                · cases u
                  simp_all [bootstrap, htr, hdl, hps, hpr, hqs, hqr]
              · simp_all [bootstrap, htr, hdl, hps, hpr, hqs, hqr]
        · simp_all [bootstrap, htr, hdl, hps, hpr]

/-- C1: the sequencer starts the HTTP server only as the last event of a
fully successful bootstrap: the kubernetes poller and the worker pool have
both signalled ready earlier in the trace, and both boot replies were
success. -/
theorem http_binds_only_after_pool_and_poller_ready (be : BootEnv)
    (h : Event.serverStarted ∈ (bootstrap be).1) :
    (∃ pre, (bootstrap be).1 = pre ++ [Event.serverStarted] ∧
      Event.pollerReady ∈ pre ∧ Event.poolReady ∈ pre) ∧
    be.pollerReply = RecvOutcome.got (Except.ok ()) ∧
    be.poolReply = RecvOutcome.got (Except.ok ()) := by
  obtain ⟨hb, hpr, hqr⟩ := bootstrap_serverStarted_eq be h
  refine ⟨⟨[Event.tracingReady, Event.downloadsDone, Event.pollerBootRequested,
    Event.pollerReady, Event.poolBootRequested be.poolSize, Event.poolReady],
    ?_, ?_, ?_⟩, hpr, hqr⟩
  · simp [hb]
  · simp
  · simp

/-- Witness for C1 at a fully successful concrete bootstrap environment. -/
theorem http_binds_only_after_pool_and_poller_ready_witness :
    Event.serverStarted ∈ (bootstrap sampleBootEnv).1 ∧
    ((∃ pre, (bootstrap sampleBootEnv).1 = pre ++ [Event.serverStarted] ∧
      Event.pollerReady ∈ pre ∧ Event.poolReady ∈ pre) ∧
    sampleBootEnv.pollerReply = RecvOutcome.got (Except.ok ()) ∧
    sampleBootEnv.poolReply = RecvOutcome.got (Except.ok ())) :=
  ⟨by decide, http_binds_only_after_pool_and_poller_ready sampleBootEnv (by decide)⟩

/-- C5: the fatal-error handler logs the message, flushes the tracer state
and exits with the non-zero status 1 as its last action; a failed policy
download stops the sequencer right there with a fatal outcome; and no
fatal run ever reaches the server start. -/
theorem bootstrap_failures_are_fatal :
    (∀ msg, SysAction.logError msg ∈ fatal_error msg ∧
      SysAction.shutdownTracerProvider ∈ fatal_error msg ∧
      (fatal_error msg).getLast? = some (SysAction.processExit 1) ∧ (1 : Nat) ≠ 0) ∧
    (∀ (be : BootEnv) (e : String), be.tracing = Except.ok () →
      (downloadAll be.env be.policies).2 = Except.error e →
      bootstrap be = ([Event.tracingReady, Event.fatalError e], BootOutcome.fatalExit e)) ∧
    (∀ (be : BootEnv) (e : String), (bootstrap be).2 = BootOutcome.fatalExit e →
      Event.fatalError e ∈ (bootstrap be).1 ∧ Event.serverStarted ∉ (bootstrap be).1) := by
  refine ⟨?_, ?_, ?_⟩
  · intro msg
    refine ⟨?_, ?_, rfl, by decide⟩ <;> simp [fatal_error]
  · intro be e htr hdl
    simp [bootstrap, htr, hdl]
  · intro be e h
    exact bootstrap_fatalExit_mem be e h

/-- Witness for C5: a concrete environment whose fetch fails stops the
bootstrap at the download step with a fatal outcome. -/
theorem bootstrap_failures_are_fatal_witness :
    bootstrap sampleFetchFailBootEnv =
      ([Event.tracingReady, Event.fatalError (fetchErrorMsg samplePolicy "boom")],
        BootOutcome.fatalExit (fetchErrorMsg samplePolicy "boom")) :=
  bootstrap_failures_are_fatal.2.1 sampleFetchFailBootEnv (fetchErrorMsg samplePolicy "boom")
    rfl rfl

/-- C6: a poller that reports the cluster unreachable makes the bootstrap
fail fatally, unless ignore_kubernetes_connection_failure is set, in which
case the poller downgrades the failure to a warning, replies ready without
context data, and the bootstrap proceeds. -/
theorem poller_unreachable_fatal_unless_ignored (be : BootEnv) (ignore : Bool)
    (htr : be.tracing = Except.ok ())
    (hdl : ∃ ps, (downloadAll be.env be.policies).2 = Except.ok ps)
    (hps : be.pollerSendOk = true)
    (hpr : be.pollerReply = RecvOutcome.got (pollerReplyResult (pollerBoot false ignore))) :
    (ignore = false →
      bootstrap be =
        ([Event.tracingReady, Event.downloadsDone, Event.pollerBootRequested,
          Event.fatalError "Kubernetes cluster unreachable"],
          BootOutcome.fatalExit "Kubernetes cluster unreachable") ∧
      Event.serverStarted ∉ (bootstrap be).1) ∧
    (ignore = true →
      pollerBoot false ignore = PollerReply.ready false true ∧
      Event.pollerReady ∈ (bootstrap be).1) := by
  obtain ⟨ps, hdl⟩ := hdl
  constructor
  · rintro rfl
    have hpr' : be.pollerReply =
        RecvOutcome.got (Except.error "Kubernetes cluster unreachable") := hpr
    constructor
    · simp [bootstrap, htr, hdl, hps, hpr']
    · simp [bootstrap, htr, hdl, hps, hpr']
  · rintro rfl
    refine ⟨rfl, ?_⟩
    have hpr' : be.pollerReply = RecvOutcome.got (Except.ok ()) := hpr
    rcases hqs : be.poolSendOk with _ | _
    · simp [bootstrap, htr, hdl, hps, hpr', hqs]
    · rcases hqr : be.poolReply with res | _
      · rcases res with e | u
        · simp [bootstrap, htr, hdl, hps, hpr', hqs, hqr]
        · cases u
          simp [bootstrap, htr, hdl, hps, hpr', hqs, hqr]
      · simp [bootstrap, htr, hdl, hps, hpr', hqs, hqr]

/-- Witness for C6 at a concrete environment with the ignore flag set: the
poller downgrades, replies ready without context, and the bootstrap
reaches poller readiness. -/
theorem poller_unreachable_fatal_unless_ignored_witness :
    (true = false →
      bootstrap sampleBootEnv =
        ([Event.tracingReady, Event.downloadsDone, Event.pollerBootRequested,
          Event.fatalError "Kubernetes cluster unreachable"],
          BootOutcome.fatalExit "Kubernetes cluster unreachable") ∧
      Event.serverStarted ∉ (bootstrap sampleBootEnv).1) ∧
    (true = true →
      pollerBoot false true = PollerReply.ready false true ∧
      Event.pollerReady ∈ (bootstrap sampleBootEnv).1) :=
  poller_unreachable_fatal_unless_ignored sampleBootEnv true rfl
    ⟨[{ name := "p1", url := "url1", wasmModulePath := "path1" }], rfl⟩ rfl rfl

end PolicyServer
